import Mathlib

/-!
Shallow embedding of the SimpliSafe integration fragment
(homeassistant/components/simplisafe/binary_sensor.py and camera.py)
together with proofs about the claims of its specification.
-/

namespace SimpliSafeSpec

/-! ## Python-level modelling of binary_sensor.py

The module references the names `async_call_later` and
`MOTION_SENSOR_TRIGGER_CLEAR` inside the websocket handlers of
`CameraDoorbellBinarySensor` and `CameraMotionBinarySensor`.  Whether those
references resolve is decided by Python name resolution over the names
actually bound at module level (imports and top-level definitions of
binary_sensor.py) plus the Python builtins.  We transcribe both name sets
and model resolution as list membership.
-/

/-- Names bound at module level in binary_sensor.py, in source order:
the `from ... import ...` lines (lines 2-20) and the top-level
assignments, function and class definitions of the module. -/
def moduleBindings : List String :=
  [ "annotations"
  , "DeviceTypes"
  , "Camera"
  , "CameraTypes"
  , "SensorV3"
  , "SystemV3"
  , "EVENT_DOORBELL_DETECTED"
  , "EVENT_CAMERA_MOTION_DETECTED"
  , "BinarySensorDeviceClass"
  , "BinarySensorEntity"
  , "ConfigEntry"
  , "HomeAssistant"
  , "callback"
  , "EntityCategory"
  , "AddEntitiesCallback"
  , "SimpliSafe"
  , "SimpliSafeEntity"
  , "DOMAIN"
  , "LOGGER"
  , "SUPPORTED_BATTERY_SENSOR_TYPES"
  , "TRIGGERED_SENSOR_TYPES"
  , "async_setup_entry"
  , "TriggeredBinarySensor"
  , "BatteryBinarySensor"
  , "CameraDoorbellBinarySensor"
  , "CameraMotionBinarySensor" ]

/-- Names of the Python builtins namespace that a bare-name lookup falls
back to when a name is not bound in the local, enclosing or module scope.
The CPython builtins contain no `async_call_later` and no
`MOTION_SENSOR_TRIGGER_CLEAR`; we list the builtins this file's code could
plausibly touch. -/
def pythonBuiltins : List String :=
  [ "True", "False", "None", "list", "dict", "str", "int", "bool", "super"
  , "format", "print", "len", "isinstance", "type", "object", "property"
  , "NameError", "Exception", "setattr", "getattr" ]

/-- Resolution of a bare global name inside a function body of
binary_sensor.py: found iff it is bound at module level or is a builtin
(the handler's local names `self`, `event`, `now`, `clear_delay_listener`
are distinct from the two names of interest). -/
def resolvesInModule (name : String) : Bool :=
  moduleBindings.contains name || pythonBuiltins.contains name

/-- A Python runtime error, reduced to the one kind this module can raise. -/
inductive PyErr where
  | nameError (name : String)
deriving DecidableEq, Repr

/-- Observable state of one transient camera binary sensor
(CameraMotionBinarySensor or CameraDoorbellBinarySensor; their
websocket/rest handlers are textually identical):
`is_on` is the `_attr_is_on` active flag, `pendingClears` counts clear
callbacks currently scheduled with the host scheduler, `publishes` counts
calls of `async_write_ha_state`. -/
structure CamSensorState where
  is_on : Bool
  pendingClears : Nat
  publishes : Nat
deriving DecidableEq, Repr

/-- State at entity construction: `_attr_is_on = False` (class attribute),
nothing scheduled, nothing published. -/
def initState : CamSensorState :=
  { is_on := false, pendingClears := 0, publishes := 0 }

/-- Embedding of `async_update_from_websocket_event` (binary_sensor.py
lines 153-167 and 199-213, identical bodies).  The statements in order:
`LOGGER.critical(event)` (no state effect), `self._attr_is_on = True`,
definition of the local `clear_delay_listener`, then the call
`async_call_later(self.hass, MOTION_SENSOR_TRIGGER_CLEAR,
clear_delay_listener)`.  CPython evaluates the callee name first, then the
arguments; an unresolvable name raises NameError at that point and the
scheduling never happens. -/
def async_update_from_websocket_event (st : CamSensorState) :
    CamSensorState × Option PyErr :=
  let st1 := { st with is_on := true }
  if resolvesInModule "async_call_later" then
    if resolvesInModule "MOTION_SENSOR_TRIGGER_CLEAR" then
      ({ st1 with pendingClears := st1.pendingClears + 1 }, none)
    else (st1, some (PyErr.nameError "MOTION_SENSOR_TRIGGER_CLEAR"))
  else (st1, some (PyErr.nameError "async_call_later"))

/-- Embedding of `async_update_from_rest_api` of the two camera sensor
classes (lines 148-151 and 194-197): the body is a docstring and a bare
`return`; it touches no state. -/
def async_update_from_rest_api (st : CamSensorState) : CamSensorState :=
  st

/-- Embedding of the local `clear_delay_listener` (lines 159-163 and
205-209): sets `_attr_is_on = False` and calls `async_write_ha_state`. -/
def clear_delay_listener (st : CamSensorState) : CamSensorState :=
  { st with is_on := false, publishes := st.publishes + 1 }

/-- Modelled from the spec: the entity base class `SimpliSafeEntity`
(homeassistant/components/simplisafe/__init__.py, not under src/) receives
the websocket event, invokes `async_update_from_websocket_event` and then
publishes the state change to the host platform; per the spec every
transition triggers a state-change notification.  An exception raised by
the handler propagates before that publish can run. -/
def dispatch_websocket_event (st : CamSensorState) : CamSensorState :=
  match async_update_from_websocket_event st with
  | (st1, none) => { st1 with publishes := st1.publishes + 1 }
  | (st1, some _) => st1

/-- Operations the host runtime can apply to one transient sensor:
delivery of a push event, a REST refresh tick, and the firing of a
scheduled clear callback (the host scheduler only fires callbacks that
were actually scheduled, so firing with nothing pending is a no-op). -/
inductive SensorOp where
  | websocketEvent
  | restRefresh
  | clearTimerFire
deriving DecidableEq, Repr

/-- One step of the transient-sensor state machine. -/
def step (st : CamSensorState) : SensorOp → CamSensorState
  | SensorOp.websocketEvent => dispatch_websocket_event st
  | SensorOp.restRefresh => async_update_from_rest_api st
  | SensorOp.clearTimerFire =>
      if st.pendingClears > 0 then
        clear_delay_listener { st with pendingClears := st.pendingClears - 1 }
      else st

/-- Running a sequence of operations. -/
def run (st : CamSensorState) (ops : List SensorOp) : CamSensorState :=
  ops.foldl step st

lemma run_append (st : CamSensorState) (ops more : List SensorOp) :
    run st (ops ++ more) = run (run st ops) more :=
  List.foldl_append ..

lemma resolves_async_call_later_false :
    resolvesInModule "async_call_later" = false := by decide

lemma websocket_event_raises (st : CamSensorState) :
    async_update_from_websocket_event st =
      ({ st with is_on := true }, some (PyErr.nameError "async_call_later")) := by
  simp [async_update_from_websocket_event, resolves_async_call_later_false]

lemma dispatch_websocket_event_eq (st : CamSensorState) :
    dispatch_websocket_event st = { st with is_on := true } := by
  simp [dispatch_websocket_event, websocket_event_raises]

/-- Each step preserves an empty scheduler queue and, given an empty
queue, preserves an already-set active flag. -/
lemma step_invariant (st : CamSensorState) (op : SensorOp)
    (h : st.pendingClears = 0) :
    (step st op).pendingClears = 0 ∧
      (st.is_on = true → (step st op).is_on = true) := by
  cases op with
  | websocketEvent => simp [step, dispatch_websocket_event_eq, h]
  | restRefresh => simp [step, async_update_from_rest_api, h]
  | clearTimerFire => simp [step, h]

lemma run_invariant (ops : List SensorOp) (st : CamSensorState)
    (h : st.pendingClears = 0) :
    (run st ops).pendingClears = 0 ∧
      (st.is_on = true → (run st ops).is_on = true) := by
  induction ops generalizing st with
  | nil => exact ⟨h, fun hon => hon⟩
  | cons op rest ih =>
      have hstep := step_invariant st op h
      have hrest := ih (step st op) hstep.1
      exact ⟨hrest.1, fun hon => hrest.2 (hstep.2 hon)⟩

/-! ## Embedding of camera.py -/

/-- System arm states of the vendor API (simplipy SystemStates). -/
inductive SystemStates where
  | alarm
  | alarm_count
  | away
  | away_count
  | entry_delay
  | error
  | home
  | home_count
  | off
  | test
  | unknown
deriving DecidableEq, Repr

/-- The fields of the externally-owned camera device record that
camera.py reads: the three shutter configuration flags and the plain
stream URL returned by `video_url()`. -/
structure CameraDeviceRecord where
  shutter_open_when_off : Bool
  shutter_open_when_home : Bool
  shutter_open_when_away : Bool
  video_url_value : String
deriving DecidableEq, Repr

/-- State of one `SimpliSafeCamera` entity together with the reads it can
perform: the owning system's arm state, the device record, the API access
token and the image cache `_last_image` (initially None). -/
structure SimpliSafeCamera where
  system_state : SystemStates
  device : CameraDeviceRecord
  access_token : String
  last_image : Option (List Nat)
deriving DecidableEq, Repr

/-- Embedding of the `auth_headers` property (camera.py lines 80-85):
the format string applied to the access token. -/
def SimpliSafeCamera.auth_headers (c : SimpliSafeCamera) : String :=
  "-headers \"Authorization: Bearer " ++ c.access_token ++ "\""

/-- Embedding of the `_video_url` property (camera.py lines 72-78): it
formats the auth headers and the device URL into a string.  It is modelled
as an Option because the call sites test it against None; the property
itself always yields `some`. -/
def SimpliSafeCamera.video_url (c : SimpliSafeCamera) : Option String :=
  some ("-re " ++ c.auth_headers ++ " -i \"" ++ c.device.video_url_value ++ "\"")

/-- Embedding of the `is_shutter_open` property (camera.py lines 87-96):
a chain of equality tests on the system state with a final `return True`. -/
def SimpliSafeCamera.is_shutter_open (c : SimpliSafeCamera) : Bool :=
  if c.system_state == SystemStates.off then c.device.shutter_open_when_off
  else if c.system_state == SystemStates.home then c.device.shutter_open_when_home
  else if c.system_state == SystemStates.away then c.device.shutter_open_when_away
  else true

/-- Restatement of the shutter-open rule in the specification's words, for
comparison with the source's `is_shutter_open`: the per-state configured
flag for OFF, HOME and AWAY, and open (the permissive default) for every
other system state. -/
def shutter_open_per_spec (c : SimpliSafeCamera) : Bool :=
  match c.system_state with
  | SystemStates.off => c.device.shutter_open_when_off
  | SystemStates.home => c.device.shutter_open_when_home
  | SystemStates.away => c.device.shutter_open_when_away
  | SystemStates.alarm | SystemStates.alarm_count | SystemStates.away_count
  | SystemStates.entry_delay | SystemStates.error | SystemStates.home_count
  | SystemStates.test | SystemStates.unknown => true

/-- Result of one `async_device_image` call: the value returned to the
caller, the entity state afterwards, and how many times the frame-grab
utility (`ImageFrame.get_image`) was invoked. -/
structure ImageFetchResult where
  returned : Option (List Nat)
  state : SimpliSafeCamera
  grab_invocations : Nat
deriving DecidableEq, Repr

/-- Embedding of `async_device_image` (camera.py lines 101-119).
`grab_result` is the value the awaited `ffmpeg.get_image` call would
yield.  Source order: if the shutter is not open, return `_last_image`;
construct the ImageFrame; if `_video_url` is None, bare return; otherwise
await the grab, store it in `_last_image` and return it. -/
def async_device_image (c : SimpliSafeCamera) (grab_result : Option (List Nat)) :
    ImageFetchResult :=
  if c.is_shutter_open = false then
    { returned := c.last_image, state := c, grab_invocations := 0 }
  else if (c.video_url).isNone then
    { returned := none, state := c, grab_invocations := 0 }
  else
    { returned := grab_result
      state := { c with last_image := grab_result }
      grab_invocations := 1 }

/-- Observable actions of one `handle_async_mjpeg_stream` invocation on
the FFmpeg stream object. -/
inductive StreamAction where
  | openCamera
  | getReader
  | proxyStream
  | closeStream
deriving DecidableEq, Repr

/-- How the body of the try block ends: the proxy loop completes, the
client disconnects, the proxy raises mid-stream, or `get_reader` itself
raises. -/
inductive TryBodyOutcome where
  | proxyCompleted
  | proxyClientDisconnect
  | proxyRaised
  | readerRaised
deriving DecidableEq, Repr

/-- Embedding of `handle_async_mjpeg_stream` (camera.py lines 121-142) as
the trace of actions on the stream.  If `_video_url` is None the function
returns before touching the stream; `open_camera` is awaited outside the
try block (if it raises, `open_ok = false`, the try block is never
entered); inside `try`, `get_reader` and the proxy run, and the `finally`
clause awaits `stream.close()` however the body ends. -/
def handle_async_mjpeg_stream (c : SimpliSafeCamera) (open_ok : Bool)
    (body : TryBodyOutcome) : List StreamAction :=
  if (c.video_url).isNone then []
  else if open_ok = false then [StreamAction.openCamera]
  else
    StreamAction.openCamera :: StreamAction.getReader ::
      (match body with
       | TryBodyOutcome.readerRaised => [StreamAction.closeStream]
       | TryBodyOutcome.proxyCompleted | TryBodyOutcome.proxyClientDisconnect
       | TryBodyOutcome.proxyRaised =>
           [StreamAction.proxyStream, StreamAction.closeStream])

/-! ## Embedding of the two async_setup_entry functions -/

/-- Vendor device types named by binary_sensor.py (simplipy DeviceTypes),
plus representatives of types outside both support lists. -/
inductive DeviceTypes where
  | carbon_monoxide
  | entry
  | glass_break
  | keypad
  | leak
  | lock_keypad
  | motion
  | siren
  | smoke
  | temperature
  | lock
  | unknown_device
deriving DecidableEq, Repr

/-- Host binary-sensor device classes used by the module. -/
inductive BinarySensorDeviceClass where
  | gas
  | door
  | safety
  | moisture
  | motion
  | smoke
deriving DecidableEq, Repr

/-- Transcription of SUPPORTED_BATTERY_SENSOR_TYPES (binary_sensor.py
lines 22-33). -/
def SUPPORTED_BATTERY_SENSOR_TYPES : List DeviceTypes :=
  [ DeviceTypes.carbon_monoxide, DeviceTypes.entry, DeviceTypes.glass_break
  , DeviceTypes.keypad, DeviceTypes.leak, DeviceTypes.lock_keypad
  , DeviceTypes.motion, DeviceTypes.siren, DeviceTypes.smoke
  , DeviceTypes.temperature ]

/-- Transcription of the TRIGGERED_SENSOR_TYPES mapping (binary_sensor.py
lines 35-43). -/
def TRIGGERED_SENSOR_TYPES : List (DeviceTypes × BinarySensorDeviceClass) :=
  [ (DeviceTypes.carbon_monoxide, BinarySensorDeviceClass.gas)
  , (DeviceTypes.entry, BinarySensorDeviceClass.door)
  , (DeviceTypes.glass_break, BinarySensorDeviceClass.safety)
  , (DeviceTypes.leak, BinarySensorDeviceClass.moisture)
  , (DeviceTypes.motion, BinarySensorDeviceClass.motion)
  , (DeviceTypes.siren, BinarySensorDeviceClass.safety)
  , (DeviceTypes.smoke, BinarySensorDeviceClass.smoke) ]

/-- Camera types of the vendor API (simplipy CameraTypes). -/
inductive CameraTypes where
  | camera
  | doorbell
  | outdoor_camera
deriving DecidableEq, Repr

/-- A vendor sensor record, reduced to what setup reads: serial and type. -/
structure SensorRecord where
  serial : Nat
  type : DeviceTypes
deriving DecidableEq, Repr

/-- A vendor camera record, reduced to what setup reads. -/
structure CameraRecord where
  serial : Nat
  camera_type : CameraTypes
deriving DecidableEq, Repr

/-- One system of the config entry as the two setup functions see it. -/
structure SimpliSafeSystem where
  version : Nat
  system_id : Nat
  sensors : List SensorRecord
  cameras : List CameraRecord
deriving DecidableEq, Repr

/-- The binary-sensor entities the setup function can construct,
identified by owning system, device serial and constructor arguments. -/
inductive BinarySensorEntityKind where
  | triggered (system_id serial : Nat) (dc : BinarySensorDeviceClass)
  | battery (system_id serial : Nat)
  | cameraMotion (system_id serial : Nat)
  | cameraDoorbell (system_id serial : Nat)
deriving DecidableEq, Repr

/-- A camera entity constructed by camera.py's setup. -/
structure CameraEntityKind where
  system_id : Nat
  serial : Nat
deriving DecidableEq, Repr

/-- Log messages the two setup functions emit. -/
inductive LogEntry where
  | skipV2 (system_id : Nat)
deriving DecidableEq, Repr

/-- Entities appended for one sensor record (binary_sensor.py lines
59-70): a TriggeredBinarySensor when the type is a TRIGGERED_SENSOR_TYPES
key (with the looked-up device class), then a BatteryBinarySensor when the
type is in SUPPORTED_BATTERY_SENSOR_TYPES. -/
def entities_for_sensor (sys_id : Nat) (s : SensorRecord) :
    List BinarySensorEntityKind :=
  (match TRIGGERED_SENSOR_TYPES.lookup s.type with
   | some dc => [BinarySensorEntityKind.triggered sys_id s.serial dc]
   | none => []) ++
  (if SUPPORTED_BATTERY_SENSOR_TYPES.contains s.type then
    [BinarySensorEntityKind.battery sys_id s.serial]
   else [])

/-- Entities appended for one camera record (binary_sensor.py lines
72-75): a CameraMotionBinarySensor always, plus a
CameraDoorbellBinarySensor when the camera type is DOORBELL. -/
def entities_for_camera (sys_id : Nat) (cam : CameraRecord) :
    List BinarySensorEntityKind :=
  BinarySensorEntityKind.cameraMotion sys_id cam.serial ::
    (if cam.camera_type == CameraTypes.doorbell then
      [BinarySensorEntityKind.cameraDoorbell sys_id cam.serial]
     else [])

/-- Contribution of one system to binary_sensor.py's `async_setup_entry`
(lines 54-75): a V2 system is skipped with a log line and contributes no
entities; otherwise its sensors and cameras are enumerated. -/
def binary_sensor_setup_system (s : SimpliSafeSystem) :
    List BinarySensorEntityKind × List LogEntry :=
  if s.version == 2 then ([], [LogEntry.skipV2 s.system_id])
  else
    (s.sensors.flatMap (entities_for_sensor s.system_id) ++
      s.cameras.flatMap (entities_for_camera s.system_id), [])

/-- Embedding of binary_sensor.py's `async_setup_entry` (lines 46-77)
over the systems of the config entry, returning the entity list passed to
`async_add_entities` and the log lines emitted. -/
def async_setup_entry_binary (systems : List SimpliSafeSystem) :
    List BinarySensorEntityKind × List LogEntry :=
  match systems with
  | [] => ([], [])
  | s :: rest =>
      let here := binary_sensor_setup_system s
      let there := async_setup_entry_binary rest
      (here.1 ++ there.1, here.2 ++ there.2)

/-- Contribution of one system to camera.py's `async_setup_entry` (lines
26-32): a V2 system is skipped with a log line; otherwise one
SimpliSafeCamera per camera record. -/
def camera_setup_system (s : SimpliSafeSystem) :
    List CameraEntityKind × List LogEntry :=
  if s.version == 2 then ([], [LogEntry.skipV2 s.system_id])
  else
    (s.cameras.map (fun cam =>
      { system_id := s.system_id, serial := cam.serial }), [])

/-- Embedding of camera.py's `async_setup_entry` (lines 20-35). -/
def async_setup_entry_camera (systems : List SimpliSafeSystem) :
    List CameraEntityKind × List LogEntry :=
  match systems with
  | [] => ([], [])
  | s :: rest =>
      let here := camera_setup_system s
      let there := async_setup_entry_camera rest
      (here.1 ++ there.1, here.2 ++ there.2)

/-! ## Setup helper lemmas -/

lemma binary_sensor_setup_system_v2 (s : SimpliSafeSystem) (h : s.version = 2) :
    binary_sensor_setup_system s = ([], [LogEntry.skipV2 s.system_id]) := by
  simp [binary_sensor_setup_system, h]

lemma camera_setup_system_v2 (s : SimpliSafeSystem) (h : s.version = 2) :
    camera_setup_system s = ([], [LogEntry.skipV2 s.system_id]) := by
  simp [camera_setup_system, h]

/-- A camera whose owning system is off and whose shutter-when-off flag is
cleared; nothing cached yet. -/
def closedShutterCam : SimpliSafeCamera :=
  { system_state := SystemStates.off
    device :=
      { shutter_open_when_off := false
        shutter_open_when_home := true
        shutter_open_when_away := true
        video_url_value := "https://cam.example/stream" }
    access_token := "tok"
    last_image := none }

/-- A camera whose owning system is away with the away flag set; an image
is already cached. -/
def openShutterCam : SimpliSafeCamera :=
  { system_state := SystemStates.away
    device :=
      { shutter_open_when_off := false
        shutter_open_when_home := false
        shutter_open_when_away := true
        video_url_value := "https://cam.example/stream" }
    access_token := "tok"
    last_image := some [9, 9] }

/-- A legacy-version system holding one motion sensor and one doorbell
camera. -/
def sampleV2System : SimpliSafeSystem :=
  { version := 2
    system_id := 7
    sensors := [{ serial := 11, type := DeviceTypes.motion }]
    cameras := [{ serial := 21, camera_type := CameraTypes.doorbell }] }

/-! ## Claims -/

/-- C1: the claimed behaviour — an event on an already-active sensor
re-sets the flag and schedules another clear without cancelling the prior
one — does not happen in the code: evaluated at an already-active sensor
state, `async_update_from_websocket_event` re-sets the flag but then
raises NameError at the `async_call_later` call, scheduling nothing
(`pendingClears` stays 0), so no second clear can ever be pending. -/
theorem C1_event_while_active_raises :
    async_update_from_websocket_event
        { is_on := true, pendingClears := 0, publishes := 1 } =
      ({ is_on := true, pendingClears := 0, publishes := 1 },
        some (PyErr.nameError "async_call_later")) :=
  websocket_event_raises _

/-- C2: neither `async_call_later` nor `MOTION_SENSOR_TRIGGER_CLEAR`
resolves in binary_sensor.py; every websocket event sets the active flag
to true and then raises NameError; consequently along every operation
sequence from the initial state no clear is ever scheduled and an active
flag, once true, is never reset to false by this module's code. -/
theorem C2_undefined_names_prevent_clear :
    resolvesInModule "async_call_later" = false ∧
    resolvesInModule "MOTION_SENSOR_TRIGGER_CLEAR" = false ∧
    (∀ st, async_update_from_websocket_event st =
      ({ st with is_on := true }, some (PyErr.nameError "async_call_later"))) ∧
    (∀ ops, (run initState ops).pendingClears = 0) ∧
    (∀ ops more, (run initState ops).is_on = true →
      (run initState (ops ++ more)).is_on = true) := by
  refine ⟨by decide, by decide, websocket_event_raises, ?_, ?_⟩
  · exact fun ops => (run_invariant ops initState rfl).1
  · intro ops more h
    rw [run_append]
    exact (run_invariant more (run initState ops)
      (run_invariant ops initState rfl).1).2 h

/-- Witness for C2 at the one-event prefix followed by a clear-fire
attempt and a REST refresh. -/
theorem C2_undefined_names_prevent_clear_witness :
    (run initState [SensorOp.websocketEvent]).is_on = true ∧
    (run initState ([SensorOp.websocketEvent] ++
      [SensorOp.clearTimerFire, SensorOp.restRefresh])).is_on = true :=
  ⟨by decide, C2_undefined_names_prevent_clear.2.2.2.2
    [SensorOp.websocketEvent] [SensorOp.clearTimerFire, SensorOp.restRefresh]
    (by decide)⟩

/-- C3: evaluation of the code on an event sequence: after the first
websocket event the active flag is true, but along every continuation it
stays true with no clear ever pending — the flag never becomes false, so
the claimed eventual clearing (no earlier than CLEAR_DELAY after the last
qualifying event) never takes place. -/
theorem C3_active_flag_never_clears :
    (run initState [SensorOp.websocketEvent]).is_on = true ∧
    (∀ more, (run initState (SensorOp.websocketEvent :: more)).is_on = true) ∧
    (∀ more,
      (run initState (SensorOp.websocketEvent :: more)).pendingClears = 0) := by
  have hstep : step initState SensorOp.websocketEvent =
      { is_on := true, pendingClears := 0, publishes := 0 } := by decide
  have hrun : ∀ more, run initState (SensorOp.websocketEvent :: more) =
      run { is_on := true, pendingClears := 0, publishes := 0 } more := by
    intro more
    show run (step initState SensorOp.websocketEvent) more = _
    rw [hstep]
  refine ⟨by decide, ?_, ?_⟩
  · intro more
    rw [hrun more]
    exact (run_invariant more _ rfl).2 rfl
  · intro more
    rw [hrun more]
    exact (run_invariant more _ rfl).1

/-- C4: whenever the shutter is computed closed, `async_device_image`
returns exactly the cached `_last_image` (whatever it is, including none),
never invokes the frame grab, and leaves the entity state unchanged. -/
theorem C4_closed_shutter_returns_cached_image (c : SimpliSafeCamera)
    (grab_result : Option (List Nat)) (h : c.is_shutter_open = false) :
    async_device_image c grab_result =
      { returned := c.last_image, state := c, grab_invocations := 0 } := by
  simp [async_device_image, h]

/-- Witness for C4: a closed shutter with an empty cache returns none
with zero grab invocations. -/
theorem C4_closed_shutter_returns_cached_image_witness :
    closedShutterCam.is_shutter_open = false ∧
    async_device_image closedShutterCam (some [1, 2, 3]) =
      { returned := none, state := closedShutterCam, grab_invocations := 0 } :=
  ⟨by decide,
    C4_closed_shutter_returns_cached_image closedShutterCam (some [1, 2, 3])
      (by decide)⟩

/-- C5: the source's `is_shutter_open` agrees with the specification's
rule on every camera state: the configured per-state flag for OFF, HOME
and AWAY, and open (permissive default) for every other system state. -/
theorem C5_is_shutter_open_matches_spec (c : SimpliSafeCamera) :
    c.is_shutter_open = shutter_open_per_spec c := by
  obtain ⟨st, d, tok, img⟩ := c
  cases st <;> rfl

/-- C6: with the shutter open and a successful frame grab,
`async_device_image` returns the newly fetched bytes and stores exactly
those bytes in the cache, with one grab invocation. -/
theorem C6_open_shutter_updates_cache (c : SimpliSafeCamera)
    (img : List Nat) (h : c.is_shutter_open = true) :
    async_device_image c (some img) =
      { returned := some img
        state := { c with last_image := some img }
        grab_invocations := 1 } := by
  simp [async_device_image, h, SimpliSafeCamera.video_url]

/-- Witness for C6: an away-armed camera with the away flag set fetches
and caches the new bytes. -/
theorem C6_open_shutter_updates_cache_witness :
    openShutterCam.is_shutter_open = true ∧
    async_device_image openShutterCam (some [4, 5]) =
      { returned := some [4, 5]
        state := { openShutterCam with last_image := some [4, 5] }
        grab_invocations := 1 } :=
  ⟨by decide, C6_open_shutter_updates_cache openShutterCam [4, 5] (by decide)⟩

/-- C7: once the stream is opened, however the try-block body ends —
proxy completed, client disconnected, proxy raised mid-stream, or the
reader call raised — the trace of `handle_async_mjpeg_stream` contains
exactly one close of the FFmpeg stream. -/
theorem C7_stream_closed_exactly_once (c : SimpliSafeCamera)
    (body : TryBodyOutcome) :
    (handle_async_mjpeg_stream c true body).count StreamAction.closeStream
      = 1 := by
  cases body <;>
    simp [handle_async_mjpeg_stream, SimpliSafeCamera.video_url, List.count_cons]

/-- C8: a version-2 system contributes no binary-sensor entities and no
camera entities to either setup function — removing it from the system
list leaves both entity lists unchanged — and its skip is logged by
both. -/
theorem C8_v2_system_contributes_no_entities
    (pre post : List SimpliSafeSystem) (s : SimpliSafeSystem)
    (h : s.version = 2) :
    (async_setup_entry_binary (pre ++ s :: post)).1 =
        (async_setup_entry_binary (pre ++ post)).1 ∧
      LogEntry.skipV2 s.system_id ∈
        (async_setup_entry_binary (pre ++ s :: post)).2 ∧
      (async_setup_entry_camera (pre ++ s :: post)).1 =
        (async_setup_entry_camera (pre ++ post)).1 ∧
      LogEntry.skipV2 s.system_id ∈
        (async_setup_entry_camera (pre ++ s :: post)).2 := by
  induction pre with
  | nil =>
      refine ⟨?_, ?_, ?_, ?_⟩ <;>
        simp [async_setup_entry_binary, async_setup_entry_camera,
          binary_sensor_setup_system_v2 s h, camera_setup_system_v2 s h]
  | cons p rest ih =>
      refine ⟨?_, ?_, ?_, ?_⟩ <;>
        simp [async_setup_entry_binary, async_setup_entry_camera,
          ih.1, ih.2.1, ih.2.2.1, ih.2.2.2]

/-- Witness for C8 at a concrete one-element system list. -/
theorem C8_v2_system_contributes_no_entities_witness :
    sampleV2System.version = 2 ∧
    ((async_setup_entry_binary ([] ++ sampleV2System :: [])).1 =
        (async_setup_entry_binary ([] ++ [])).1 ∧
      LogEntry.skipV2 sampleV2System.system_id ∈
        (async_setup_entry_binary ([] ++ sampleV2System :: [])).2 ∧
      (async_setup_entry_camera ([] ++ sampleV2System :: [])).1 =
        (async_setup_entry_camera ([] ++ [])).1 ∧
      LogEntry.skipV2 sampleV2System.system_id ∈
        (async_setup_entry_camera ([] ++ sampleV2System :: [])).2) :=
  ⟨rfl, C8_v2_system_contributes_no_entities [] [] sampleV2System rfl⟩

/-- C9: evaluation of the code at the first websocket event on a fresh
sensor: the IDLE-to-ACTIVE transition happens (the flag becomes true) but
zero state-change notifications are published, because the handler raises
NameError before the entity base's publish can run — contradicting the
claim that every transition triggers a notification. -/
theorem C9_transition_without_notification :
    (run initState [SensorOp.websocketEvent]).is_on = true ∧
    (run initState [SensorOp.websocketEvent]).publishes = 0 := by
  decide

/-- C10: `async_update_from_rest_api` of the camera sensors never touches
the state at all, and no module operation other than the firing of the
deferred clear callback takes the active flag from true to false; the
clear listener itself is the unique operation that writes false. -/
theorem C10_active_cleared_only_by_clear_listener :
    (∀ st, async_update_from_rest_api st = st) ∧
    (∀ st op, op ≠ SensorOp.clearTimerFire → st.is_on = true →
      (step st op).is_on = true) ∧
    (∀ st, (clear_delay_listener st).is_on = false) := by
  refine ⟨fun st => rfl, ?_, fun st => rfl⟩
  intro st op hne hon
  cases op with
  | websocketEvent => simp [step, dispatch_websocket_event_eq]
  | restRefresh => exact hon
  | clearTimerFire => exact absurd rfl hne

/-- Witness for C10: a REST refresh on an active sensor leaves it
active. -/
theorem C10_active_cleared_only_by_clear_listener_witness :
    SensorOp.restRefresh ≠ SensorOp.clearTimerFire ∧
    (step { is_on := true, pendingClears := 5, publishes := 0 }
      SensorOp.restRefresh).is_on = true :=
  ⟨by decide, C10_active_cleared_only_by_clear_listener.2.1
    { is_on := true, pendingClears := 5, publishes := 0 }
    SensorOp.restRefresh (by decide) rfl⟩

end SimpliSafeSpec
